import Mathlib

/-!
Shallow embedding of the TSL2591 MicroPython light-sensor driver
(`tsl2591.py`) and proofs about its specification.

Modelling conventions:
* The I2C transport is modelled by `Bus`: a register file `regs : Nat → Nat`
  (each register holds one byte), the register currently targeted by the
  last command byte, and a `trace` recording every transaction the driver
  issues, in order.
* Python `float` arithmetic in `lux` is modelled over `ℚ`; the claims under
  study concern branch selection and error behaviour, not rounding.
* A raised Python exception is modelled by the `.error` branch of `Except`,
  whose payload carries the state at the raise point.
* Machine bytes are `Nat` values; `readfrom` yields bytes, modelled by
  reducing the register content `% 256`.
-/

namespace TSL2591

/-! ### Constants (classes `Gain`, `Time`, and `TSL2591` class attributes) -/

namespace Gain

def LOW : Nat := 0x00

def MEDIUM : Nat := 0x10

def HIGH : Nat := 0x20

def MAX : Nat := 0x30

end Gain

namespace Time

def MS100 : Nat := 0x00

def MS200 : Nat := 0x01

def MS300 : Nat := 0x02

def MS400 : Nat := 0x03

def MS500 : Nat := 0x04

def MS600 : Nat := 0x05

end Time

def COMMAND : Nat := 0xA0

def DEVICE_ID : Nat := 0x50

def LUX_COEFB : ℚ := 1.64

def LUX_COEFC : ℚ := 0.59

def LUX_COEFD : ℚ := 0.86

def LUX_DF : ℚ := 408.0

def MAX_COUNT_100MS : Nat := 36863

def MAX_COUNT : Nat := 65535

def REGISTER_ENABLE : Nat := 0x00

def REGISTER_CONFIG : Nat := 0x01

def REGISTER_ID : Nat := 0x12

def REGISTER_C0DATAL : Nat := 0x14

def REGISTER_C0DATAH : Nat := 0x15

def REGISTER_C1DATAL : Nat := 0x16

def REGISTER_C1DATAH : Nat := 0x17

/-! ### Bus model -/

/-- One transaction issued by the driver on the I2C bus.
`command` is the `writeto` issued by `_target` (a command byte `0xA0 | register`);
`writeData` is the `writeto` issued by `_write`, which lands in the register
selected at that moment; `readOp` is a `readfrom` of `nbytes` bytes. -/
inductive BusOp where
  | command (byte : Nat)
  | writeData (register : Nat) (byte : Nat)
  | readOp (nbytes : Nat)
  deriving DecidableEq

/-- The device seen through the bus: a byte-register file, the register
currently selected by the last command byte, and the transaction trace. -/
structure Bus where
  regs : Nat → Nat
  selected : Nat
  trace : List BusOp

/-- `TSL2591._target(register)`: send the command byte `COMMAND | register`,
which selects `register` for the next data transfer. -/
def target (b : Bus) (register : Nat) : Bus :=
  { b with selected := register,
           trace := b.trace ++ [BusOp.command (COMMAND ||| register)] }

/-- `TSL2591._read()` with the default `nbytes = 1`: read one byte from the
currently selected register.  Reading does not modify the register file. -/
def read1 (b : Bus) : Nat × Bus :=
  (b.regs b.selected % 256, { b with trace := b.trace ++ [BusOp.readOp 1] })

/-- `TSL2591._write(buffer)` for a one-byte buffer: the byte is stored in the
currently selected register. -/
def write (b : Bus) (byte : Nat) : Bus :=
  { b with regs := Function.update b.regs b.selected byte,
           trace := b.trace ++ [BusOp.writeData b.selected byte] }

/-- Python `int.to_bytes()` with the default length of one byte: yields the
byte when the value fits, otherwise raises `OverflowError` (modelled `none`). -/
def to_bytes1 (n : Nat) : Option Nat :=
  if n < 256 then some n else none

/-! ### Driver state and operations -/

/-- The driver's local fields `_gain` and `_time`, together with the bus. -/
structure State where
  gain : Nat
  time : Nat
  bus : Bus

/-- `TSL2591.enable(aen, aien, npien, pon)`: select the ENABLE register and
write the packed flag byte `npien << 7 | aien << 4 | aen << 1 | pon`. -/
def enable (s : State) (aen aien npien pon : Bool) : State :=
  let b := target s.bus REGISTER_ENABLE
  let buffer : Nat :=
    (cond npien 1 0) <<< 7 ||| (cond aien 1 0) <<< 4 |||
    (cond aen 1 0) <<< 1 ||| (cond pon 1 0)
  { s with bus := write b buffer }

/-- `TSL2591.__init__`: set `_gain := Gain.LOW` and `_time := Time.MS100`,
select the ID register, read one byte, raise `RuntimeError` if it differs
from `DEVICE_ID`, otherwise call `enable()` with its default arguments.
On error the payload is the bus at the raise point. -/
def init (b : Bus) : Except Bus State :=
  let b1 := target b REGISTER_ID
  let r := read1 b1
  if r.1 ≠ DEVICE_ID then
    Except.error r.2
  else
    Except.ok (enable { gain := Gain.LOW, time := Time.MS100, bus := r.2 }
      true false false true)

/-- `TSL2591.raw_luminosity`: four select+read round trips
(C0 low, C0 high, C1 low, C1 high); each channel is assembled by
`int.from_bytes(high_byte + low_byte)`, i.e. big-endian over the two bytes,
which is `high * 256 + low`. -/
def raw_luminosity (b : Bus) : (Nat × Nat) × Bus :=
  let b1 := target b REGISTER_C0DATAL
  let r1 := read1 b1
  let b2 := target r1.2 REGISTER_C0DATAH
  let r2 := read1 b2
  let b3 := target r2.2 REGISTER_C1DATAL
  let r3 := read1 b3
  let b4 := target r3.2 REGISTER_C1DATAH
  let r4 := read1 b4
  ((r2.1 * 256 + r1.1, r4.1 * 256 + r3.1), r4.2)

/-- The `raw_luminosity` property as invoked on the driver object: it touches
only the bus, never the local `_gain` / `_time` fields. -/
def raw_luminosityS (s : State) : (Nat × Nat) × State :=
  let r := raw_luminosity s.bus
  (r.1, { s with bus := r.2 })

/-- `TSL2591.full_spectrum`: `C1 << 16 | C0` over a fresh raw reading. -/
def full_spectrum (s : State) : Nat × State :=
  let r := raw_luminosityS s
  (r.1.2 <<< 16 ||| r.1.1, r.2)

/-- `TSL2591.infrared`: the channel-1 count of a fresh raw reading. -/
def infrared (s : State) : Nat × State :=
  let r := raw_luminosityS s
  (r.1.2, r.2)

/-- `TSL2591.visible`: take a raw reading for `C1`, then evaluate the
`full_spectrum` property (a second full raw read) and return
`full_spectrum - C1`.  The result is nonnegative because
`full_spectrum = C1 * 65536 + C0`, so `Nat` subtraction is faithful to
Python's integer subtraction here. -/
def visible (s : State) : Nat × State :=
  let r := raw_luminosityS s
  let p := full_spectrum r.2
  (p.1 - r.1.2, p.2)

/-- The dictionary `timings` in `TSL2591.lux`: seconds per tier; lookup of a
key outside the six tiers raises `KeyError` (modelled `none`). -/
def timings (t : Nat) : Option ℚ :=
  if t = Time.MS100 then some 0.1
  else if t = Time.MS200 then some 0.2
  else if t = Time.MS300 then some 0.3
  else if t = Time.MS400 then some 0.4
  else if t = Time.MS500 then some 0.5
  else if t = Time.MS600 then some 0.6
  else none

/-- The `again` selection in `TSL2591.lux`, exactly as the source's
`if`/`elif` chain is written: note that the source tests `Gain.HIGH` twice,
so the branch assigning `9876.0` is unreachable and `Gain.MAX` falls through
to the initial `1.0`. -/
def lux_again (g : Nat) : ℚ :=
  if g = Gain.MEDIUM then 25.0
  else if g = Gain.HIGH then 428.0
  else if g = Gain.HIGH then 9876.0
  else 1.0

/-- Failure modes of `TSL2591.lux`: the `timings` dictionary lookup raising
`KeyError`, or the overflow `RuntimeError` when a channel count reaches the
maximum for the current integration-time tier. -/
inductive LuxError where
  | keyError
  | overflow
  deriving DecidableEq

/-- `TSL2591.lux`: fresh raw reading, `atime` from the `timings` dictionary,
saturation threshold `MAX_COUNT_100MS` for the 100 ms tier and `MAX_COUNT`
otherwise, overflow check, `again` selection, and the two-formula lux
computation, returning `max LUX0 LUX1`.  Errors carry the state at the raise
point. -/
def lux (s : State) : Except (LuxError × State) (ℚ × State) :=
  let r := raw_luminosityS s
  let C0 := r.1.1
  let C1 := r.1.2
  match timings s.time with
  | none => Except.error (LuxError.keyError, r.2)
  | some t =>
    let atime : ℚ := t * 1000
    let counts : Nat := if s.time = Time.MS100 then MAX_COUNT_100MS else MAX_COUNT
    if counts ≤ C0 ∨ counts ≤ C1 then
      Except.error (LuxError.overflow, r.2)
    else
      let again := lux_again s.gain
      let CPL := (atime * again) / LUX_DF
      let LUX0 := ((C0 : ℚ) - LUX_COEFB * (C1 : ℚ)) / CPL
      let LUX1 := (LUX_COEFC * (C0 : ℚ) - LUX_COEFD * (C1 : ℚ)) / CPL
      Except.ok (max LUX0 LUX1, r.2)

/-- The `gain` setter: `assert value in (LOW, MEDIUM, HIGH, MAX)` first (an
invalid value raises `AssertionError` before any bus traffic and before any
field update), then select CONFIG, read it, clear with mask `0x07`, OR in the
new value, write back, and only then update `_gain`. -/
def set_gain (s : State) (value : Nat) : Except State State :=
  if value = Gain.LOW ∨ value = Gain.MEDIUM ∨ value = Gain.HIGH ∨ value = Gain.MAX then
    let b := target s.bus REGISTER_CONFIG
    let r := read1 b
    let reading := (r.1 &&& 0x07) ||| value
    match to_bytes1 reading with
    | none => Except.error { s with bus := r.2 }
    | some byte => Except.ok { s with gain := value, bus := write r.2 byte }
  else
    Except.error s

/-- The `time` setter: the source performs NO validation of `value` (despite
its docstring): it selects CONFIG, reads it, clears with mask `0x30`, ORs in
the value, writes back, and updates `_time`.  The only failure is
`to_bytes()` overflowing when the combined byte exceeds 255. -/
def set_time (s : State) (value : Nat) : Except State State :=
  let b := target s.bus REGISTER_CONFIG
  let r := read1 b
  let reading := (r.1 &&& 0x30) ||| value
  match to_bytes1 reading with
  | none => Except.error { s with bus := r.2 }
  | some byte => Except.ok { s with time := value, bus := write r.2 byte }

/-- The driver state an operation left behind, on success or at the raise
point. -/
def stateOf : Except (LuxError × State) (ℚ × State) → State
  | Except.error (_, s) => s
  | Except.ok (_, s) => s

/-! ### Concrete fixtures for witnesses and counterexamples -/

/-- A bus whose registers all read zero, with an empty trace. -/
def zeroBus : Bus :=
  { regs := fun _ => 0, selected := 0, trace := [] }

/-- A fresh driver over `zeroBus` in the post-construction default
configuration. -/
def testState : State :=
  { gain := Gain.LOW, time := Time.MS100, bus := zeroBus }

/-- A bus whose registers all read `0xFF`, so both channels read 65535. -/
def brightBus : Bus :=
  { regs := fun _ => 255, selected := 0, trace := [] }

/-- A driver over `brightBus` at gain LOW, integration time 100 ms. -/
def brightState : State :=
  { gain := Gain.LOW, time := Time.MS100, bus := brightBus }

/-! ### Helper lemmas -/

/-- Packing a high byte over `n` cleared low bits: the OR is an addition. -/
theorem shiftLeft_lor_eq_add (h l n : Nat) (hl : l < 2 ^ n) :
    h <<< n ||| l = h * 2 ^ n + l := by
  rw [Nat.shiftLeft_eq, Nat.mul_comm h (2 ^ n)]
  exact (Nat.mul_add_lt_is_or hl h).symm

/-- Specialisation of `shiftLeft_lor_eq_add` to one byte. -/
theorem lor_low8 (h l : Nat) (hl : l < 256) : h <<< 8 ||| l = h * 256 + l := by
  have := shiftLeft_lor_eq_add h l 8 (by norm_num [hl])
  simpa using this

/-- Specialisation of `shiftLeft_lor_eq_add` to sixteen bits. -/
theorem lor_low16 (h l : Nat) (hl : l < 65536) :
    h <<< 16 ||| l = h * 65536 + l := by
  have := shiftLeft_lor_eq_add h l 16 (by norm_num [hl])
  simpa using this

/-- Both assembled channel counts are 16-bit values. -/
theorem raw_luminosity_lt (b : Bus) :
    (raw_luminosity b).1.1 < 65536 ∧ (raw_luminosity b).1.2 < 65536 := by
  constructor <;> · simp only [raw_luminosity, target, read1]; omega

/-! ### Claims -/

/-- C1: the claim states a four-way distinct mapping LOW→1, MEDIUM→25,
HIGH→428, MAX→9876 in the lux computation.  The code's `elif` chain tests
`Gain.HIGH` twice, so the `9876.0` branch is dead and `Gain.MAX` selects
`again = 1.0`: the code contradicts the intended mapping at MAX. -/
theorem C1_max_gain_multiplier_bug :
    lux_again Gain.MAX = 1 ∧ lux_again Gain.LOW = 1 ∧
    lux_again Gain.MEDIUM = 25 ∧ lux_again Gain.HIGH = 428 := by
  norm_num [lux_again, Gain.LOW, Gain.MEDIUM, Gain.HIGH, Gain.MAX]

/-- C2: the claim states that an integration-time value outside
`{0x00, ..., 0x05}` is rejected with no bus traffic and no state change.
The time setter performs no validation: at the invalid tier `0x07` it
succeeds, stores `_time = 7`, issues a CONFIG select, a read, and a data
write, and changes the device's CONFIG register. -/
theorem C2_time_setter_accepts_invalid :
    (set_time testState 0x07).toOption.map
        (fun s => (s.time, s.bus.regs REGISTER_CONFIG, s.bus.trace)) =
      some (0x07, 0x07,
        [BusOp.command (COMMAND ||| REGISTER_CONFIG), BusOp.readOp 1,
         BusOp.writeData REGISTER_CONFIG 0x07]) := by
  rfl

/-- C3: `raw_luminosity` issues exactly four select+read round trips, in the
order C0 low, C0 high, C1 low, C1 high, and each channel equals the high
byte shifted left 8 OR'd with the low byte. -/
theorem C3_raw_luminosity_protocol (b : Bus) :
    (raw_luminosity b).2.trace =
      b.trace ++
        [BusOp.command (COMMAND ||| REGISTER_C0DATAL), BusOp.readOp 1,
         BusOp.command (COMMAND ||| REGISTER_C0DATAH), BusOp.readOp 1,
         BusOp.command (COMMAND ||| REGISTER_C1DATAL), BusOp.readOp 1,
         BusOp.command (COMMAND ||| REGISTER_C1DATAH), BusOp.readOp 1] ∧
    (raw_luminosity b).1.1 =
      (b.regs REGISTER_C0DATAH % 256) <<< 8 ||| (b.regs REGISTER_C0DATAL % 256) ∧
    (raw_luminosity b).1.2 =
      (b.regs REGISTER_C1DATAH % 256) <<< 8 ||| (b.regs REGISTER_C1DATAL % 256) := by
  refine ⟨?_, ?_, ?_⟩
  · simp [raw_luminosity, target, read1]
  · rw [lor_low8 _ _ (Nat.mod_lt _ (by norm_num))]
    simp [raw_luminosity, target, read1]
  · rw [lor_low8 _ _ (Nat.mod_lt _ (by norm_num))]
    simp [raw_luminosity, target, read1]

/-- C5: the gain setter rejects every value outside
`{LOW, MEDIUM, HIGH, MAX}` (the `assert` fails), leaving the state — in
particular the stored gain and the bus trace — exactly as it was. -/
theorem C5_gain_setter_rejects (s : State) (v : Nat)
    (hv : ¬(v = Gain.LOW ∨ v = Gain.MEDIUM ∨ v = Gain.HIGH ∨ v = Gain.MAX)) :
    set_gain s v = Except.error s := by
  simp only [set_gain, if_neg hv]

/-- Witness for C5 at the invalid gain value 5 on a concrete driver state. -/
theorem C5_gain_setter_rejects_witness :
    ¬((5 : Nat) = Gain.LOW ∨ (5 : Nat) = Gain.MEDIUM ∨
      (5 : Nat) = Gain.HIGH ∨ (5 : Nat) = Gain.MAX) ∧
    set_gain testState 5 = Except.error testState :=
  ⟨by decide, C5_gain_setter_rejects testState 5 (by decide)⟩

/-- C8: the claim states the local gain/time fields always equal the field
last written to CONFIG.  Because the time setter does not validate its
argument, `set_time 0x10` succeeds: it stores `_time = 0x10` while the byte
written to CONFIG is `0x10`, whose time field (bits 0–2, mask `0x07`) is 0,
and whose gain bits (mask `0x30`) become `0x10` while `_gain` stays `0x00`
— both fields fall out of lock-step. -/
theorem C8_lockstep_bug :
    (set_time testState 0x10).toOption.map
        (fun s => (s.gain, s.time, s.bus.regs REGISTER_CONFIG, s.bus.trace)) =
      some (Gain.LOW, 0x10, 0x10,
        [BusOp.command (COMMAND ||| REGISTER_CONFIG), BusOp.readOp 1,
         BusOp.writeData REGISTER_CONFIG 0x10]) ∧
    (0x10 : Nat) &&& 0x07 = 0 ∧ (0x10 : Nat) &&& 0x30 = 0x10 := by
  exact ⟨rfl, rfl, rfl⟩

/-- C9: for every driver state, the value returned by `visible` equals the
value `full_spectrum` returns minus the value `infrared` returns (the
register file is unchanged by reads, so the repeated raw readings agree). -/
theorem C9_visible_eq_full_spectrum_sub_infrared (s : State) :
    (visible s).1 = (full_spectrum s).1 - (infrared s).1 := by
  simp only [visible, full_spectrum, infrared, raw_luminosityS, raw_luminosity,
    target, read1]

/-- C4: for every driver state in a valid integration-time tier, `lux` uses
the saturation threshold `MAX_COUNT_100MS = 36863` for the 100 ms tier and
`MAX_COUNT = 65535` otherwise, and when either channel count reaches that
threshold it fails with the overflow (saturation) error, producing no
numeric result. -/
theorem C4_lux_saturation (s : State) (ht : s.time < 6)
    (hsat : (if s.time = Time.MS100 then MAX_COUNT_100MS else MAX_COUNT) ≤
              (raw_luminosityS s).1.1 ∨
            (if s.time = Time.MS100 then MAX_COUNT_100MS else MAX_COUNT) ≤
              (raw_luminosityS s).1.2) :
    lux s = Except.error (LuxError.overflow, (raw_luminosityS s).2) := by
  obtain ⟨q, hq⟩ : ∃ q, timings s.time = some q := by
    simp only [timings, Time.MS100, Time.MS200, Time.MS300, Time.MS400,
      Time.MS500, Time.MS600]
    split_ifs <;> first | exact ⟨_, rfl⟩ | (exfalso; omega)
  simp only [lux, hq]
  rw [if_pos hsat]

/-- Witness for C4: a fully lit bus (both channels read 65535) at the 100 ms
tier saturates and `lux` fails. -/
theorem C4_lux_saturation_witness :
    brightState.time < 6 ∧
    ((if brightState.time = Time.MS100 then MAX_COUNT_100MS else MAX_COUNT) ≤
        (raw_luminosityS brightState).1.1 ∨
     (if brightState.time = Time.MS100 then MAX_COUNT_100MS else MAX_COUNT) ≤
        (raw_luminosityS brightState).1.2) ∧
    lux brightState =
      Except.error (LuxError.overflow, (raw_luminosityS brightState).2) :=
  ⟨by decide, by decide, C4_lux_saturation brightState (by decide) (by decide)⟩

/-- C6: `full_spectrum` is the bit-packing `C1 <<< 16 ||| C0`: its low 16
bits are the raw channel-0 count and its high 16 bits the raw channel-1
count of the underlying reading. -/
theorem C6_full_spectrum_packing (s : State) :
    (full_spectrum s).1 =
      (raw_luminosityS s).1.2 <<< 16 ||| (raw_luminosityS s).1.1 ∧
    (full_spectrum s).1 % 65536 = (raw_luminosityS s).1.1 ∧
    (full_spectrum s).1 / 65536 = (raw_luminosityS s).1.2 := by
  have h0 : (raw_luminosityS s).1.1 < 65536 := (raw_luminosity_lt s.bus).1
  have h1 : (full_spectrum s).1 =
      (raw_luminosityS s).1.2 * 65536 + (raw_luminosityS s).1.1 := by
    simp only [full_spectrum]
    exact lor_low16 _ _ h0
  refine ⟨?_, ?_, ?_⟩
  · simp only [full_spectrum]
  · rw [h1]; omega
  · rw [h1]; omega

/-- C7: when the byte read from the ID register differs from `DEVICE_ID`,
construction fails; its bus traffic is exactly the ID select command and a
one-byte read, and in particular no data write (to ENABLE or any other
register) is issued beyond whatever the trace already contained. -/
theorem C7_init_rejects_bad_id (b : Bus)
    (h : b.regs REGISTER_ID % 256 ≠ DEVICE_ID) :
    ∃ bErr : Bus, init b = Except.error bErr ∧
      bErr.trace =
        b.trace ++ [BusOp.command (COMMAND ||| REGISTER_ID), BusOp.readOp 1] ∧
      ∀ r d, BusOp.writeData r d ∈ bErr.trace → BusOp.writeData r d ∈ b.trace := by
  refine ⟨{ regs := b.regs, selected := REGISTER_ID,
            trace := b.trace ++
              [BusOp.command (COMMAND ||| REGISTER_ID), BusOp.readOp 1] },
          ?_, rfl, ?_⟩
  · simp only [init, target, read1]
    rw [if_pos h]
    simp
  · intro r d hmem
    simpa using hmem

/-- Witness for C7: a bus whose ID register reads 0 makes construction fail
with only the select and read on the trace. -/
theorem C7_init_rejects_bad_id_witness :
    zeroBus.regs REGISTER_ID % 256 ≠ DEVICE_ID ∧
    (∃ bErr : Bus, init zeroBus = Except.error bErr ∧
      bErr.trace = zeroBus.trace ++
        [BusOp.command (COMMAND ||| REGISTER_ID), BusOp.readOp 1] ∧
      ∀ r d, BusOp.writeData r d ∈ bErr.trace →
        BusOp.writeData r d ∈ zeroBus.trace) :=
  ⟨by decide, C7_init_rejects_bad_id zeroBus (by decide)⟩

/-- C10: every read-only accessor (`raw_luminosity`, `full_spectrum`,
`infrared`, `visible`, `lux`) leaves the locally stored gain and
integration-time fields unchanged, whether it returns a value or fails. -/
theorem C10_accessors_preserve_config (s : State) :
    (raw_luminosityS s).2.gain = s.gain ∧ (raw_luminosityS s).2.time = s.time ∧
    (full_spectrum s).2.gain = s.gain ∧ (full_spectrum s).2.time = s.time ∧
    (infrared s).2.gain = s.gain ∧ (infrared s).2.time = s.time ∧
    (visible s).2.gain = s.gain ∧ (visible s).2.time = s.time ∧
    (stateOf (lux s)).gain = s.gain ∧ (stateOf (lux s)).time = s.time := by
  have hraw : (raw_luminosityS s).2.gain = s.gain ∧
      (raw_luminosityS s).2.time = s.time := by
    constructor <;> simp only [raw_luminosityS]
  have hfs : (full_spectrum s).2.gain = s.gain ∧
      (full_spectrum s).2.time = s.time := by
    constructor <;> simp only [full_spectrum, raw_luminosityS]
  have hir : (infrared s).2.gain = s.gain ∧ (infrared s).2.time = s.time := by
    constructor <;> simp only [infrared, raw_luminosityS]
  have hv : (visible s).2.gain = s.gain ∧ (visible s).2.time = s.time := by
    constructor <;> simp only [visible, full_spectrum, raw_luminosityS]
  have hlux : (stateOf (lux s)).gain = s.gain ∧
      (stateOf (lux s)).time = s.time := by
    unfold lux
    cases htm : timings s.time with
    | none => constructor <;> simp only [stateOf, raw_luminosityS]
    | some t =>
      simp only [raw_luminosityS]
      by_cases hc :
          (if s.time = Time.MS100 then MAX_COUNT_100MS else MAX_COUNT) ≤
            (raw_luminosity s.bus).1.1 ∨
          (if s.time = Time.MS100 then MAX_COUNT_100MS else MAX_COUNT) ≤
            (raw_luminosity s.bus).1.2
      · rw [if_pos hc]
        exact ⟨rfl, rfl⟩
      · rw [if_neg hc]
        exact ⟨rfl, rfl⟩
  exact ⟨hraw.1, hraw.2, hfs.1, hfs.2, hir.1, hir.2, hv.1, hv.2,
    hlux.1, hlux.2⟩

end TSL2591
